import Mathlib

/-!
Verification of the visual-scaffolder scaffold-orchestration pipeline.

Each definition below is a shallow embedding of one function (or one
well-delimited fragment) of the Python sources: `main.py`,
`dependencies.py`, `scaffolder.py`, `frameworks/vue.py`,
`frameworks/angular.py`, `frameworks/tailwind.py`,
`utils/git_manager.py` and `utils/scaffold_tracker.py`.  External
effects (subprocess invocations, the filesystem) are made explicit:
command outcomes become boolean parameters, filesystem fragments become
explicit state values, and each embedded function returns both its
result and the state (or event trace) it produces.  Definitions whose
names start with `spec_` transcribe the specification's words instead
and are used only to compare the specified behaviour with the embedded
code.
-/

/-! ## Project-name validation (`main.py`, `validate_step1`, lines 82-103) -/

/-- Characters removed by Python's `str.strip()` (the ASCII whitespace
set Python strips from both ends). -/
def pyIsSpace (c : Char) : Bool :=
  c == ' ' || c == '\t' || c == '\n' || c == '\r' || c == '\x0b' || c == '\x0c'

/-- Python's `str.strip()`: drop whitespace from both ends. -/
def pyStrip (s : String) : String :=
  String.mk (((s.data.dropWhile pyIsSpace).reverse.dropWhile pyIsSpace).reverse)

/-- The character class `[a-zA-Z0-9-]` of the regular expression at
`main.py` line 91. -/
def isProjectNameChar (c : Char) : Bool :=
  ('a' ≤ c && c ≤ 'z') || ('A' ≤ c && c ≤ 'Z') || ('0' ≤ c && c ≤ '9') || c == '-'

/-- Whether a character list is 1 to 50 characters long and drawn
entirely from the class `[a-zA-Z0-9-]` (the body of the anchored
regular expression at `main.py` line 91). -/
def nameCharsMatch (l : List Char) : Bool :=
  decide (1 ≤ l.length) && decide (l.length ≤ 50) && l.all isProjectNameChar

/-- Python's `re.match` of the anchored pattern at `main.py` line 91:
the whole string must be 1-50 class characters, except that `$` may
also match just before one final newline. -/
def reMatchProjectName (s : String) : Bool :=
  nameCharsMatch s.data || (s.data.getLast? == some '\n' && nameCharsMatch s.data.dropLast)

/-- Outcome of `validate_step1`: the empty-name error message, the
format error message, or success (advancing to step 2). -/
inductive NameValidation
  | emptyName
  | badFormat
  | ok
deriving DecidableEq, Repr

/-- `validate_step1` of `main.py` (lines 82-103): strip the entered
name, reject the empty string, then match the regular expression
`[a-zA-Z0-9-]` repeated 1 to 50 times, anchored on both sides. -/
def validate_step1 (raw : String) : NameValidation :=
  let project_name := pyStrip raw
  if project_name.data.isEmpty then .emptyName
  else if !reMatchProjectName project_name then .badFormat
  else .ok

/-- The claim's character class `[A-Za-z0-9_-]` — transcribed from the
claim's own words (it includes the underscore) to compare the claimed
pattern with the code's pattern; not part of the embedded code. -/
def spec_nameChar (c : Char) : Bool :=
  ('a' ≤ c && c ≤ 'z') || ('A' ≤ c && c ≤ 'Z') || ('0' ≤ c && c ≤ '9') ||
    c == '_' || c == '-'

/-- The claim's full pattern: 1 to 50 characters of `[A-Za-z0-9_-]`,
anchored.  Transcribed from the claim's words, for comparison only. -/
def spec_nameMatch (s : String) : Bool :=
  decide (1 ≤ s.data.length) && decide (s.data.length ≤ 50) && s.data.all spec_nameChar

theorem head?_dropWhile_eq_some (p : Char → Bool) :
    ∀ (l : List Char) (c : Char), (l.dropWhile p).head? = some c → p c = false := by
  intro l
  induction l with
  | nil => intro c h; simp [List.dropWhile] at h
  | cons a t ih =>
    intro c h
    by_cases hp : p a
    · rw [List.dropWhile_cons_of_pos hp] at h
      exact ih c h
    · rw [List.dropWhile_cons_of_neg hp] at h
      simp at h
      rw [← h]
      exact Bool.not_eq_true _ ▸ (by simpa using hp)

theorem pyStrip_getLast?_not_space (s : String) (c : Char)
    (h : (pyStrip s).data.getLast? = some c) : pyIsSpace c = false := by
  unfold pyStrip at h
  simp only [List.getLast?_reverse] at h
  exact head?_dropWhile_eq_some pyIsSpace _ c h

theorem reMatch_pyStrip (raw : String) :
    reMatchProjectName (pyStrip raw) = nameCharsMatch (pyStrip raw).data := by
  unfold reMatchProjectName
  cases hg : (pyStrip raw).data.getLast? with
  | none => simp [hg]
  | some c =>
    have hc := pyStrip_getLast?_not_space raw c hg
    have hne : (some c == some '\n') = false := by
      by_contra hx
      simp at hx
      subst hx
      simp [pyIsSpace] at hc
    simp [hg, hne]

theorem nameCharsMatch_iff (l : List Char) :
    nameCharsMatch l = true ↔
      1 ≤ l.length ∧ l.length ≤ 50 ∧ ∀ c ∈ l, isProjectNameChar c = true := by
  simp [nameCharsMatch, List.all_eq_true, and_assoc]

example : validate_step1 "demo-app" = .ok := by decide
example : validate_step1 "  demo-app  " = .ok := by decide
example : validate_step1 "my_app" = .badFormat := by decide
example : validate_step1 "" = .emptyName := by decide

/-- Claim C2 (counterexample): the name string containing an underscore
matches the claim's pattern `[A-Za-z0-9_-]` of length 1-50, yet the
code's validation rejects it, so validation does not succeed exactly on
the claimed pattern. -/
theorem C2_name_validation_cex :
    spec_nameMatch "my_app" = true ∧ validate_step1 "my_app" ≠ NameValidation.ok := by
  decide

/-- Claim C2 (amended): name validation succeeds if and only if the
stripped name matches the anchored pattern of 1 to 50 characters drawn
from `[a-zA-Z0-9-]` — letters, digits and hyphens, with the underscore
NOT accepted; every name containing a character outside that class or
outside the length bounds is rejected with a descriptive error. -/
theorem C2_name_validation_amended (raw : String) :
    validate_step1 raw = NameValidation.ok ↔
      1 ≤ (pyStrip raw).data.length ∧ (pyStrip raw).data.length ≤ 50 ∧
        ∀ c ∈ (pyStrip raw).data, isProjectNameChar c = true := by
  rw [← nameCharsMatch_iff]
  unfold validate_step1
  simp only [reMatch_pyStrip raw]
  by_cases he : (pyStrip raw).data.isEmpty
  · have hnil : (pyStrip raw).data = [] := List.isEmpty_iff.mp he
    simp [he, hnil, nameCharsMatch]
  · cases hm : nameCharsMatch (pyStrip raw).data with
    | false => simp [he, hm]
    | true => simp [he, hm]

/-! ## Runtime version gate (`dependencies.py`, `check_node`, lines 66-90) -/

/-- Python's `split(".")` on a character list: the maximal runs between
dot separators, with empty runs kept (`"a..b"` gives three parts). -/
def splitOnDot : List Char → List (List Char)
  | [] => [[]]
  | c :: t =>
    let rest := splitOnDot t
    if c == '.' then [] :: rest
    else
      match rest with
      | [] => [[c]]
      | h :: t2 => (c :: h) :: t2

/-- Python's `int(...)` on the non-negative digit strings that occur in
version tags: every character must be a decimal digit; an empty or
non-numeric part raises (modelled as `none`). -/
def parseNatDigits (l : List Char) : Option Nat :=
  if l.isEmpty then none
  else if l.all Char.isDigit then
    some (l.foldl (fun n c => 10 * n + (c.toNat - '0'.toNat)) 0)
  else none

/-- The acceptance test at `dependencies.py` line 75: a reported
major/minor pair passes when `major > 20 or (major == 20 and minor >= 11)`.
The patch component is never read by `check_node`. -/
def node_version_ok (major minor : Nat) : Bool :=
  decide (20 < major) || (major == 20 && decide (11 ≤ minor))

/-- Version gating of `check_node` (`dependencies.py` lines 71-84) on the
reported version string: split on dots, strip every leading `v` from the
first part (Python's `lstrip("v")`), parse the first two parts as
integers and apply the line-75 test.  `none` models the uncaught
exception a malformed string would raise; `some accepted` is the gate's
verdict. -/
def check_node_gate (node_version : String) : Option Bool :=
  match splitOnDot node_version.data with
  | p0 :: p1 :: _ =>
    match parseNatDigits (p0.dropWhile (· == 'v')), parseNatDigits p1 with
    | some major, some minor => some (node_version_ok major minor)
    | _, _ => none
  | _ => none

/-- One external action of `ensure_dependencies`. -/
inductive DepStep
  | checkNode
  | installNode
  | checkVueCli
  | installVueCli
deriving DecidableEq, Repr

/-- `ensure_dependencies` (`dependencies.py` lines 254-269) with the
outcome of each external check or install supplied as a boolean:
returns overall success together with the sequence of steps run.  A
failed node check triggers `install_node`; a failed CLI check triggers
`install_vue_cli`; an install failure aborts. -/
def ensure_dependencies (nodeCheckOk installNodeOk vueCheckOk installVueOk : Bool) :
    Bool × List DepStep :=
  let nodePhase : Bool × List DepStep :=
    if nodeCheckOk then (true, [.checkNode])
    else (installNodeOk, [.checkNode, .installNode])
  if !nodePhase.1 then (false, nodePhase.2)
  else
    let vuePhase : Bool × List DepStep :=
      if vueCheckOk then (true, [.checkVueCli])
      else (installVueOk, [.checkVueCli, .installVueCli])
    (vuePhase.1, nodePhase.2 ++ vuePhase.2)

/-- Lexicographic at-least on version triples — transcribed from the
claim's words (an inclusive lower bound of 20.11.1 on
major.minor.patch), for comparison only; not part of the embedded
code. -/
def spec_versionAtLeast (maj mnr pat lmaj lmnr lpat : Nat) : Bool :=
  decide (lmaj < maj) ||
    (maj == lmaj && (decide (lmnr < mnr) || (mnr == lmnr && decide (lpat ≤ pat))))

example : check_node_gate "v16.2.0" = some false := by decide
example : check_node_gate "v20.11.1" = some true := by decide

/-- Claim C3 (counterexample): version v20.11.0 is strictly below the
claimed inclusive lower bound 20.11.1, yet the gate accepts it — the
code never reads the patch component — so the gate does not accept
exactly the versions at or above 20.11.1. -/
theorem C3_version_gate_cex :
    check_node_gate "v20.11.0" = some true ∧
      spec_versionAtLeast 20 11 0 20 11 1 = false := by
  decide

/-- Claim C3 (amended): the gate accepts exactly the versions whose
major.minor pair is lexicographically at least 20.11 — the patch
component is ignored, making the effective inclusive lower bound
20.11.0 rather than 20.11.1.  Input v16.2.0 is reported unsupported,
and a failed version check always triggers the install path in
`ensure_dependencies` while a successful one never does. -/
theorem C3_version_gate_amended :
    (∀ major minor : Nat, node_version_ok major minor = true ↔
        20 < major ∨ (major = 20 ∧ 11 ≤ minor)) ∧
    check_node_gate "v16.2.0" = some false ∧
    check_node_gate "v20.10.9" = some false ∧
    check_node_gate "v20.11.0" = some true ∧
    check_node_gate "v21.0.0" = some true ∧
    (∀ i v w : Bool, DepStep.installNode ∈ (ensure_dependencies false i v w).2 ∧
        DepStep.installNode ∉ (ensure_dependencies true i v w).2) := by
  refine ⟨?_, by decide, by decide, by decide, by decide, by decide⟩
  intro major minor
  simp [node_version_ok]

/-! ## Runtime install cleanup (`dependencies.py`, `install_node`, lines 119-169) -/

/-- Outcomes of the external commands `install_node` runs, in source
order: the network probe (`check_internet`), the non-interactive
privilege probe (`check_sudo`), the curl fetch of the vendor setup
script, the elevated run of that script, the package install, and the
final `node --version` verification. -/
structure NodeInstallEnv where
  internetOk : Bool
  sudoOk : Bool
  curlOk : Bool
  setupScriptOk : Bool
  aptOk : Bool
  verifyOk : Bool
deriving DecidableEq, Repr

/-- `install_node` (`dependencies.py` lines 119-169): returns whether
the install succeeded together with whether `/tmp/nodesource_setup.sh`
exists when the function returns; `scriptExists0` is whether that path
exists on entry.  The two probes before the `try` block return without
touching the file.  Inside the `try` block the fetch and each
subsequent step either proceeds or exits (early `return`, caught
`CalledProcessError`, or any other exception caught at line 162), and
every one of those exits runs the `finally` clause of lines 166-169,
which removes the file when it exists — so the block always ends with
the file absent. -/
def install_node (env : NodeInstallEnv) (scriptExists0 : Bool) : Bool × Bool :=
  if !env.internetOk then (false, scriptExists0)
  else if !env.sudoOk then (false, scriptExists0)
  else
    (env.curlOk && env.setupScriptOk && env.aptOk && env.verifyOk, false)

/-- Claim C6: on every exit path of `install_node` that reaches the
fetch of the setup script (both pre-fetch probes passed — success, any
tool failure, or an exception after the fetch), the temporary
setup-script file does not exist when `install_node` returns. -/
theorem C6_install_cleanup (env : NodeInstallEnv) (s0 : Bool)
    (hNet : env.internetOk = true) (hSudo : env.sudoOk = true) :
    (install_node env s0).2 = false := by
  simp [install_node, hNet, hSudo]

/-- Claim C6 (witness): after a simulated install failure — the
elevated setup-script run fails — the script file does not exist when
the error is returned. -/
theorem C6_install_cleanup_witness :
    (install_node ⟨true, true, true, false, true, true⟩ true).2 = false :=
  C6_install_cleanup ⟨true, true, true, false, true, true⟩ true rfl rfl

/-! ## Project-directory reset (`frameworks/vue.py` lines 36-49 and
`frameworks/angular.py` lines 56-69) -/

/-- Filesystem actions of the directory-reset fragment. -/
inductive ResetAction
  | rmtree
  | makedirs
deriving DecidableEq, Repr

/-- The directory-reset fragment shared by `create_vue_project`
(vue.py lines 36-49) and `create_angular_project` (angular.py lines
56-69): when the target directory exists it is removed with
`shutil.rmtree`; a removal failure returns the error at once, before
the `os.makedirs` of the recreation; otherwise the directory is
(re)created empty.  `contents0` is the directory's contents on entry
(`none` when it does not exist), `leftover` whatever a failed removal
leaves behind.  Returns the error if any, the actions performed in
order, and the directory contents afterwards. -/
def directory_reset (contents0 : Option (List String)) (rmtreeOk : Bool)
    (leftover : List String) :
    Option String × List ResetAction × Option (List String) :=
  match contents0 with
  | none => (none, [.makedirs], some [])
  | some _ =>
    if rmtreeOk then (none, [.rmtree, .makedirs], some [])
    else (some "Failed to remove existing directory", [.rmtree], some leftover)

/-- Claim C7: when the target directory already exists, a successful
reset removes it and then recreates it empty (the contents afterwards
are empty whatever was there before, so the scaffold never merges old
and new content), and a failed removal returns an error having
performed no recreation. -/
theorem C7_directory_reset (old leftover : List String) :
    directory_reset (some old) true leftover = (none, [.rmtree, .makedirs], some []) ∧
    (directory_reset (some old) false leftover).1.isSome = true ∧
    ResetAction.makedirs ∉ (directory_reset (some old) false leftover).2.1 := by
  refine ⟨rfl, rfl, ?_⟩
  simp [directory_reset]

/-! ## Tailwind stylesheet injection (`frameworks/vue.py` lines
205-216 and `frameworks/angular.py` lines 231-240) -/

/-- The Tailwind directive block both generators write (vue.py lines
207-211, angular.py lines 233-237). -/
def tailwind_directives : String :=
  "\n@tailwind base;\n@tailwind components;\n@tailwind utilities;\n"

/-- vue.py lines 205-216: the content of `src/assets/main.css` after
the Tailwind feature step, as a function of the file's prior content
(`none` when the file did not exist; the enclosing directory is created
first with `os.makedirs`).  The file is opened with mode `"w"`, which
truncates before writing. -/
def vue_main_css_after (prior : Option String) : String :=
  tailwind_directives

/-- angular.py lines 231-240: the content of `src/styles.css` after the
Tailwind feature step, as a function of the file's prior content.  The
file is opened with mode `"w"`, which truncates before writing. -/
def angular_styles_css_after (prior : Option String) : String :=
  tailwind_directives

/-- Claim C1 (counterexample): with a stylesheet already present whose
content is `old-content`, neither generator appends — afterwards the
file holds only the directives, and the pre-existing content is not
preserved. -/
theorem C1_stylesheet_cex :
    vue_main_css_after (some "old-content") ≠ "old-content" ++ tailwind_directives ∧
    angular_styles_css_after (some "old-content") ≠ "old-content" ++ tailwind_directives := by
  decide

/-- Claim C1 (amended): when the Tailwind feature is enabled the
generators write the stylesheet wholesale: whatever the prior content —
including none at all — the file afterwards contains exactly the
Tailwind directives; pre-existing content is overwritten, not
preserved. -/
theorem C1_stylesheet_amended (prior : Option String) :
    vue_main_css_after prior = tailwind_directives ∧
    angular_styles_css_after prior = tailwind_directives :=
  ⟨rfl, rfl⟩

/-! ## JSON-like option values (the shapes `json.loads` can produce,
passed through the config into the generators) -/

/-- A JSON-like Python value: dict, list, string, integer, boolean or
None.  Dicts are insertion-ordered association lists. -/
inductive JsonVal
  | obj (fields : List (String × JsonVal))
  | arr (elems : List JsonVal)
  | str (s : String)
  | num (n : Int)
  | bool (b : Bool)
  | null

/-- Python truthiness of a JSON-like value (`if value:`). -/
def jsonTruthy : JsonVal → Bool
  | .obj fields => !fields.isEmpty
  | .arr elems => !elems.isEmpty
  | .str s => !s.data.isEmpty
  | .num n => n != 0
  | .bool b => b
  | .null => false

/-- Python's `isinstance(value, dict)`. -/
def isJsonObj : JsonVal → Bool
  | .obj _ => true
  | _ => false

/-! ## Metadata writer (`utils/scaffold_tracker.py`,
`write_scaffold_metadata`, lines 7-22) -/

/-- Python dict assignment `d[k] = v` on an insertion-ordered
association list: replace the value of an existing key in place, or
append the new key at the end. -/
def dictSet : List (String × JsonVal) → String → JsonVal → List (String × JsonVal)
  | [], k, v => [(k, v)]
  | (k0, v0) :: t, k, v =>
    if k0 == k then (k0, v) :: t else (k0, v0) :: dictSet t k v

/-- `write_scaffold_metadata` (scaffold_tracker.py lines 7-22), with
the clock reading passed in: the function assigns `created_at` and
`scaffolder_version` into the caller's `config` dict itself (lines
10-13), then serializes that same dict with `json.dump` to the file
`.scaffold.json` in the project root.  Returns the caller's dict as it
is after the call, together with the sidecar file name and the mapping
serialized into it. -/
def write_scaffold_metadata (config : List (String × JsonVal)) (now : String) :
    List (String × JsonVal) × String × List (String × JsonVal) :=
  let config1 := dictSet config "created_at" (.str now)
  let config2 := dictSet config1 "scaffolder_version" (.str "1.0.0")
  (config2, (".scaffold.json", config2))

theorem lookup_dictSet_same (m : List (String × JsonVal)) (k : String) (v : JsonVal) :
    (dictSet m k v).lookup k = some v := by
  induction m with
  | nil => simp [dictSet]
  | cons p t ih =>
    obtain ⟨k0, v0⟩ := p
    by_cases h : k0 = k
    · subst h
      simp [dictSet]
    · have hb : (k0 == k) = false := by simp [h]
      have hb2 : (k == k0) = false := by simp [Ne.symm h]
      simp [dictSet, hb, List.lookup, hb2, ih]

theorem lookup_dictSet_other (m : List (String × JsonVal)) (k k2 : String) (v : JsonVal)
    (h : k2 ≠ k) : (dictSet m k v).lookup k2 = m.lookup k2 := by
  induction m with
  | nil =>
    have hb : (k2 == k) = false := by simp [h]
    simp [dictSet, List.lookup, hb]
  | cons p t ih =>
    obtain ⟨k0, v0⟩ := p
    by_cases h0 : k0 = k
    · subst h0
      have hb : (k2 == k0) = false := by simp [h]
      simp [dictSet, List.lookup, hb]
    · have hb : (k0 == k) = false := by simp [h0]
      by_cases h2 : k2 = k0
      · subst h2
        simp [dictSet, hb, List.lookup]
      · have hb2 : (k2 == k0) = false := by simp [h2]
        simp [dictSet, hb, List.lookup, hb2, ih]

/-- Claim C5 (counterexample): calling the metadata writer on the
one-entry configuration mapping `framework := "vue"` leaves the
caller's mapping changed — it gains the `created_at` and
`scaffolder_version` keys — so the configuration is not consumed
read-only. -/
theorem C5_metadata_cex :
    (write_scaffold_metadata [("framework", JsonVal.str "vue")] "2024-01-01T00:00:00").1 ≠
      [("framework", JsonVal.str "vue")] := by
  intro h
  have hlen := congrArg List.length h
  simp [write_scaffold_metadata, dictSet] at hlen

/-- Claim C5 (amended): the metadata writer serializes, to the fixed
sidecar name `.scaffold.json` at the project root, the configuration
augmented with the generation timestamp under `created_at` and the
fixed tool-version tag `1.0.0` under `scaffolder_version`, every other
key keeping its value — but it augments the caller's mapping in place
rather than a copy: after the call the caller's mapping equals the
serialized one. -/
theorem C5_metadata_amended (config : List (String × JsonVal)) (now : String) :
    (write_scaffold_metadata config now).2.1 = ".scaffold.json" ∧
    (write_scaffold_metadata config now).2.2.lookup "created_at" = some (.str now) ∧
    (write_scaffold_metadata config now).2.2.lookup "scaffolder_version" =
      some (.str "1.0.0") ∧
    (∀ k : String, k ≠ "created_at" → k ≠ "scaffolder_version" →
      (write_scaffold_metadata config now).2.2.lookup k = config.lookup k) ∧
    (write_scaffold_metadata config now).1 = (write_scaffold_metadata config now).2.2 := by
  refine ⟨rfl, ?_, ?_, ?_, rfl⟩
  · by_cases h : "created_at" = "scaffolder_version"
    · exact absurd h (by decide)
    · simp [write_scaffold_metadata]
      rw [lookup_dictSet_other _ _ _ _ h, lookup_dictSet_same]
  · simp [write_scaffold_metadata, lookup_dictSet_same]
  · intro k h1 h2
    simp [write_scaffold_metadata]
    rw [lookup_dictSet_other _ _ _ _ h2, lookup_dictSet_other _ _ _ _ h1]

/-! ## Malformed option bags (`frameworks/vue.py` lines 105-136 and
266-293; `frameworks/angular.py` lines 252-262) -/

/-- Python attribute access `value.get(key, default)`: defined only on
a dict; on any non-dict value it raises `AttributeError` (modelled as
`Except.error` carrying the message's fixed part — Python prints
`object has no attribute get` with the type and attribute quoted). -/
def pyGetAttrGet (v : JsonVal) (k : String) (dflt : JsonVal) : Except String JsonVal :=
  match v with
  | .obj fields => .ok ((fields.lookup k).getD dflt)
  | _ => .error "object has no attribute get"

/-- The option-bag error handling of `create_vue_project`, with every
external command assumed to succeed.  When ESLint is enabled, building
the generated config evaluates `custom_eslint_rules.get("rules", {})`
at vue.py line 131 — before any validity check; on a non-dict bag this
raises `AttributeError`, caught only by the generic handler at line
307, which returns `Unexpected error: ...`.  The later `isinstance`
check at line 269 (guarded by `use_eslint and custom_eslint_rules`)
would convert a non-dict bag to the descriptive `ValueError` of line
280, and the check at line 285 (guarded by `use_prettier and
prettier_config`) does the same for Prettier at line 293.  Returns the
error message of the first failing step, `none` on success. -/
def vue_option_bag_errors (use_eslint : Bool) (custom_eslint_rules : JsonVal)
    (use_prettier : Bool) (prettier_config : JsonVal) : Option String :=
  match (if use_eslint then pyGetAttrGet custom_eslint_rules "rules" (.obj []) else .ok .null) with
  | .error e => some ("Unexpected error: " ++ e)
  | .ok _ =>
    if use_eslint && jsonTruthy custom_eslint_rules && !isJsonObj custom_eslint_rules then
      some "Invalid ESLint configuration: Custom ESLint rules must be a valid JSON object"
    else if use_prettier && jsonTruthy prettier_config && !isJsonObj prettier_config then
      some "Invalid Prettier configuration: Prettier config must be a valid JSON object"
    else none

/-- Claim C8 (code bug, evaluated): with ESLint enabled and a malformed
(non-object) custom-rules bag, generation fails with the generic
`Unexpected error` message — the dereference at vue.py line 131 runs
before the `isinstance` validation at line 269, so the descriptive
`Invalid ESLint configuration` error the code itself defines at line
280 can never be produced, for any option bag — while a malformed
Prettier bag does produce its descriptive error as the spec says. -/
theorem C8_option_bag_code_bug :
    vue_option_bag_errors true (.str "not-an-object") false .null =
      some "Unexpected error: object has no attribute get" ∧
    vue_option_bag_errors false .null true (.str "not-an-object") =
      some "Invalid Prettier configuration: Prettier config must be a valid JSON object" ∧
    ∀ ue : Bool, ∀ rules : JsonVal, ∀ up : Bool, ∀ pc : JsonVal,
      vue_option_bag_errors ue rules up pc ≠
        some "Invalid ESLint configuration: Custom ESLint rules must be a valid JSON object" := by
  refine ⟨by decide, by decide, ?_⟩
  intro ue rules up pc
  cases ue <;> cases rules <;>
    simp [vue_option_bag_errors, pyGetAttrGet, isJsonObj, jsonTruthy]

/-! ## Version-control initializer (`utils/git_manager.py`) -/

/-- The `node` ignore-file template of `git_manager.py` lines 6-17,
after the `content.strip()` applied at line 70. -/
def gitignore_template_node : String :=
  "# Node.js\nnode_modules/\ndist/\n.env\n.DS_Store\nlogs/\n*.log\nnpm-debug.log*\nyarn-debug.log*\nyarn-error.log*"

/-- The `python` ignore-file template of `git_manager.py` lines 18-31,
after the `content.strip()` applied at line 70. -/
def gitignore_template_python : String :=
  "# Python\n__pycache__/\n*.py[cod]\n*.egg-info/\n*.egg\n*.pyo\n*.pyd\n.env\n.venv/\n.DS_Store\nlogs/\n*.log"

/-- The `default` ignore-file template of `git_manager.py` lines 32-38,
after the `content.strip()` applied at line 70. -/
def gitignore_template_default : String :=
  "# General\n.DS_Store\n.env\n*.log\nlogs/"

/-- The project-directory facts `init_git_repo` inspects and updates:
whether `.git` exists, the `.gitignore` content if present, and the
markers `detect_project_type` looks for (a `package.json`, a
`requirements.txt`, any `.py` file). -/
structure RepoFS where
  gitDir : Bool
  gitignore : Option String
  packageJson : Bool
  requirementsTxt : Bool
  anyPyFile : Bool
deriving DecidableEq, Repr

/-- `detect_project_type` (git_manager.py lines 42-50): `package.json`
present gives `node`; else `requirements.txt` or any `.py` file gives
`python`; else `default`. -/
def detect_project_type (fs : RepoFS) : String :=
  if fs.packageJson then "node"
  else if fs.requirementsTxt || fs.anyPyFile then "python"
  else "default"

/-- `GITIGNORE_TEMPLATES.get(project_type, GITIGNORE_TEMPLATES["default"])`
(git_manager.py lines 66-68), with the `content.strip()` of line 70
applied. -/
def gitignore_template_for (project_type : String) : String :=
  if project_type == "node" then gitignore_template_node
  else if project_type == "python" then gitignore_template_python
  else gitignore_template_default

/-- `init_git_repo` (git_manager.py lines 53-75): a no-op when `.git`
already exists; otherwise run `git init` (outcome `gitInitCmdOk`) —
a command failure is caught and re-raised as
`RuntimeError("Git setup failed.")` — then, only when no `.gitignore`
exists, write the template selected by `detect_project_type`. -/
def init_git_repo (fs : RepoFS) (gitInitCmdOk : Bool) : Except String RepoFS :=
  if fs.gitDir then .ok fs
  else if !gitInitCmdOk then .error "Git setup failed."
  else
    let fs1 : RepoFS := { fs with gitDir := true }
    match fs1.gitignore with
    | some _ => .ok fs1
    | none =>
      .ok { fs1 with gitignore := some (gitignore_template_for (detect_project_type fs1)) }

/-- Claim C9: version-control initialization is idempotent — with the
`.git` marker present it performs no mutation; a failing `git init`
raises the setup-failed error; on first init with an ignore-file
already present only the repository marker is added; and on first init
with no ignore-file the template selected by the detected project kind
is written (manifest file → node, Python markers → python, neither →
generic). -/
theorem C9_git_init (fs : RepoFS) (cmdOk : Bool) :
    (fs.gitDir = true → init_git_repo fs cmdOk = .ok fs) ∧
    (fs.gitDir = false → cmdOk = false →
      init_git_repo fs cmdOk = .error "Git setup failed.") ∧
    (fs.gitDir = false → cmdOk = true → ∀ c : String, fs.gitignore = some c →
      init_git_repo fs cmdOk = .ok { fs with gitDir := true }) ∧
    (fs.gitDir = false → cmdOk = true → fs.gitignore = none →
      init_git_repo fs cmdOk = .ok { fs with gitDir := true, gitignore := some (gitignore_template_for (detect_project_type fs)) }) ∧
    (fs.packageJson = true → detect_project_type fs = "node") ∧
    (fs.packageJson = false → (fs.requirementsTxt || fs.anyPyFile) = true →
      detect_project_type fs = "python") ∧
    (fs.packageJson = false → fs.requirementsTxt = false → fs.anyPyFile = false →
      detect_project_type fs = "default") := by
  obtain ⟨g, ig, pj, rq, py⟩ := fs
  refine ⟨?_, ?_, ?_, ?_, ?_, ?_, ?_⟩
  · intro h
    subst h
    simp [init_git_repo]
  · intro h1 h2
    subst h1
    subst h2
    simp [init_git_repo]
  · intro h1 h2 c h3
    subst h1
    subst h2
    subst h3
    simp [init_git_repo]
  · intro h1 h2 h3
    subst h1
    subst h2
    subst h3
    simp [init_git_repo, detect_project_type]
  · intro h
    have hp : pj = true := h
    subst hp
    simp [detect_project_type]
  · intro h1 h2
    have hp : pj = false := h1
    subst hp
    have hor : rq = true ∨ py = true := by simpa using h2
    rcases hor with h | h <;> subst h <;> simp [detect_project_type]
  · intro h1 h2 h3
    have hp : pj = false := h1
    have hr : rq = false := h2
    have hy : py = false := h3
    subst hp
    subst hr
    subst hy
    simp [detect_project_type]

/-- Claim C9 (witness): first init on a directory holding a manifest
file and no ignore-file, with `git init` succeeding: the repository
marker appears and the node template is written. -/
theorem C9_git_init_witness :
    init_git_repo ⟨false, none, true, false, false⟩ true =
      Except.ok ⟨true, some gitignore_template_node, true, false, false⟩ :=
  (C9_git_init ⟨false, none, true, false, false⟩ true).2.2.2.1 rfl rfl rfl

/-! ## Angular generator step order (`frameworks/angular.py`,
`create_angular_project`) -/

/-- The pipeline steps of `create_angular_project`, in source order. -/
inductive AngStep
  | depCheck
  | dirReset
  | baseScaffold
  | gitInit
  | metadataWrite
  | lintScript
  | eslintInstall
  | tailwindInstall
  | prettierInstall
  | stylelintInstall
  | jestInstall
  | envWrite
deriving DecidableEq, Repr

/-- Whether a step is one of the optional feature installs. -/
def isFeatureInstall : AngStep → Bool
  | .eslintInstall => true
  | .tailwindInstall => true
  | .prettierInstall => true
  | .stylelintInstall => true
  | .jestInstall => true
  | _ => false

/-- The sequence of steps a successful run of `create_angular_project`
executes, as a function of the feature toggles: the dependency check
(line 51), the directory reset (lines 56-69), the `ng new` scaffold
(lines 72-99), git initialization (line 102), the metadata write
(lines 104-121), the lint-script update (lines 123-131), then the
toggled feature installs in source order — ESLint (133-188), Tailwind
(190-240), Prettier (242-262), Stylelint (264-287), Jest (289-343) —
and the env-file write (346-350). -/
def create_angular_project_steps (use_eslint use_tailwind use_prettier use_stylelint
    use_tests use_env : Bool) : List AngStep :=
  [.depCheck, .dirReset, .baseScaffold, .gitInit, .metadataWrite, .lintScript] ++
    (if use_eslint then [.eslintInstall] else []) ++
    (if use_tailwind then [.tailwindInstall] else []) ++
    (if use_prettier then [.prettierInstall] else []) ++
    (if use_stylelint then [.stylelintInstall] else []) ++
    (if use_tests then [.jestInstall] else []) ++
    (if use_env then [.envWrite] else [])

/-- Claim C4 (counterexample): in a successful Angular generation run
with every feature enabled, the metadata write comes after
version-control initialization and before the ESLint feature install —
the opposite of the claimed ordering on both sides. -/
theorem C4_metadata_order_cex :
    (create_angular_project_steps true true true true true true).indexOf AngStep.gitInit <
      (create_angular_project_steps true true true true true true).indexOf
        AngStep.metadataWrite ∧
    (create_angular_project_steps true true true true true true).indexOf
        AngStep.metadataWrite <
      (create_angular_project_steps true true true true true true).indexOf
        AngStep.eslintInstall := by
  decide

/-- Claim C4 (amended): in every successful Angular generation run the
metadata write executes after version-control initialization and
before every feature-install step that runs (never after any feature
install and never before version-control init). -/
theorem C4_metadata_order_amended :
    ∀ ue ut up us uj uv : Bool,
      (create_angular_project_steps ue ut up us uj uv).indexOf AngStep.gitInit <
        (create_angular_project_steps ue ut up us uj uv).indexOf AngStep.metadataWrite ∧
      ∀ s ∈ create_angular_project_steps ue ut up us uj uv, isFeatureInstall s = true →
        (create_angular_project_steps ue ut up us uj uv).indexOf AngStep.metadataWrite <
          (create_angular_project_steps ue ut up us uj uv).indexOf s := by
  decide

/-! ## Coordinator (`scaffolder.py`, `ProjectScaffolder.create_project`,
lines 20-74) -/

/-- The externally visible actions of the coordinator. -/
inductive CoordEvent
  | mkProjectDir
  | vueGenerate
  | angularGenerate
  | tailwindManualInstall
  | gitInitCall
  | metadataWrite
deriving DecidableEq, Repr

/-- `ProjectScaffolder.create_project` (scaffolder.py lines 20-74):
creates the project directory (line 26; outcome `mkdirOk`), then
dispatches on the framework name.  Only the value `"Vue.js"` reaches a
generator (`create_vue_project`, outcome `vueOk`); every other value
logs `not yet supported` and returns success at line 53 with only the
empty directory created — `create_angular_project` is not referenced
anywhere in the coordinator, which imports only the Vue generator.  On
the Vue path the optional manual Tailwind install follows (lines
56-58; a `RuntimeError` is caught by the handler at line 72), then the
optional git initialization — the call at lines 63-65 passes a
`project_type` keyword that `init_git_repo` does not accept, so it
raises `TypeError`, caught at line 72 — and finally the metadata
write.  Returns `(success, error)` and the events performed. -/
def create_project (mkdirOk : Bool) (framework : String) (use_tailwind use_git : Bool)
    (vueOk tailwindOk : Bool) : (Bool × String) × List CoordEvent :=
  if !mkdirOk then ((false, "Failed to create project: makedirs failed"), [])
  else if framework == "Vue.js" then
    if !vueOk then ((false, "vue generation failed"), [.mkProjectDir, .vueGenerate])
    else if use_tailwind && !tailwindOk then
      ((false, "Failed to create project: Tailwind installation failed. Check logs for details."),
        [.mkProjectDir, .vueGenerate, .tailwindManualInstall])
    else
      let evs := [CoordEvent.mkProjectDir, .vueGenerate] ++
        (if use_tailwind then [CoordEvent.tailwindManualInstall] else [])
      if use_git then
        ((false, "Failed to create project: init_git_repo got an unexpected keyword argument"),
          evs ++ [.gitInitCall])
      else ((true, ""), evs ++ [.metadataWrite])
  else ((true, ""), [.mkProjectDir])

/-- Claim C10: for every configuration whose framework is any value
other than `Vue.js` — `Angular` included — the coordinator creates
only the project directory and returns success immediately: no
dependency check, scaffold command, feature install, git call or
metadata write happens, and the Angular generator is invoked on no
path of the coordinator at all. -/
theorem C10_non_vue_framework (framework : String) (ut ug vk tk : Bool)
    (hfw : framework ≠ "Vue.js") :
    create_project true framework ut ug vk tk = ((true, ""), [CoordEvent.mkProjectDir]) ∧
    ∀ mk : Bool, ∀ fw : String, ∀ a b c d : Bool,
      CoordEvent.angularGenerate ∉ (create_project mk fw a b c d).2 := by
  constructor
  · have hb : (framework == "Vue.js") = false := by simp [hfw]
    simp [create_project, hb]
  · intro mk fw a b c d
    cases mk <;> cases a <;> cases b <;> cases c <;> cases d <;>
      by_cases hfw2 : (fw == "Vue.js") = true <;>
        simp [create_project, hfw2]

/-- Claim C10 (witness): with framework `Angular` and every toggle on,
the coordinator returns success having only created the directory, and
the Angular generator is never invoked. -/
theorem C10_non_vue_framework_witness :
    create_project true "Angular" true true true true =
      ((true, ""), [CoordEvent.mkProjectDir]) ∧
    CoordEvent.angularGenerate ∉ (create_project true "Angular" true true true true).2 := by
  have h := C10_non_vue_framework "Angular" true true true true (by decide)
  exact ⟨h.1, h.2 true "Angular" true true true true⟩
